import Mathlib

/-!
Verification of the subcommand registration, argument-composition and dispatch
layer of the ground-data-system CLI front end
(source file: src/fprime_gds/executables/fprime_cli.py).

The embedding is shallow: the argparse namespace becomes an explicit record,
exceptions become Except values, parser.error and sys.exit become outcome
constructors, and external collaborators (the dictionary loader, the shell
completion machinery, the working directory) are passed in explicitly.
-/

namespace FprimeCli

/-- Exception values relevant to this module. The only exception kind the CLI
layer ever catches is ValueError; loadError stands for whatever the external
dictionary loader raises. -/
inductive PyError where
  | valueError (msg : String)
  | loadError (msg : String)
deriving DecidableEq, Repr

/-- Shallow model of an argparse namespace as it reaches this module. For the
dictionary attribute the outer Option models attribute presence (hasattr):
none means the attribute is absent, some v means it is present holding the
Python value v, where the inner none models Python None. The remaining fields
model attributes that the source reads or writes directly, plus an extra
association list standing for every other user-supplied destination. -/
structure Namespace where
  dictionary : Option (Option String) := none
  deploy : Option String := none
  config : Option String := none
  command_name : Option String := none
  is_printing_list : Bool := false
  extra : List (String × String) := []
deriving DecidableEq, Repr

/-- Shallow embedding of get_dictionary_path (source lines 77-88). The working
directory read by os.getcwd() is passed explicitly as cwd. The body deep-copies
its argument (so the caller record is never touched), defaults a missing
dictionary attribute to None on the copy, assigns deploy and config on the
copy, and returns the copy's dictionary attribute. No statement in the body can
raise, so the Except result is ok by construction. -/
def get_dictionary_path (current_args : Namespace) (cwd : String) :
    Except PyError (Option String) :=
  let args := current_args
  let args := if args.dictionary.isNone then { args with dictionary := some none } else args
  let args := { args with deploy := some cwd }
  let args := { args with config := none }
  Except.ok (args.dictionary.getD none)

/-- Shallow embedding of add_valid_dictionary (source lines 91-98): stores the
result of get_dictionary_path into the dictionary attribute of the given
namespace and returns it, propagating any exception. -/
def add_valid_dictionary (args : Namespace) (cwd : String) : Except PyError Namespace :=
  match get_dictionary_path args cwd with
  | Except.error e => Except.error e
  | Except.ok d => Except.ok { args with dictionary := some d }

/-- Outcome of a validate_args call: either the (possibly augmented) namespace,
or the parser.error path, which prints the message and terminates the process
with a nonzero status. -/
inductive ValidateResult where
  | ok (args : Namespace)
  | usageError (msg : String)
deriving DecidableEq, Repr

/-- Shallow embedding of CliSubparserInjectorBase.validate_args (source lines
135-148): try add_valid_dictionary; a ValueError becomes the parser.error path
with the fixed message. -/
def validate_args (args : Namespace) (cwd : String) : ValidateResult :=
  match add_valid_dictionary args cwd with
  | Except.error _ => ValidateResult.usageError "No valid project dictionary found"
  | Except.ok a => ValidateResult.ok a

/-- Python truthiness of an optional string value: None and the empty string
are falsy, every other string is truthy. -/
def pyTruthy : Option String → Bool
  | none => false
  | some s => s != ""

/-- Shallow embedding of CommandSubparserInjector.validate_args (source lines
259-270): if neither command_name nor is_printing_list is truthy, take the
parser.error path; otherwise delegate to the base-class validate_args. -/
def command_send_validate_args (args : Namespace) (cwd : String) : ValidateResult :=
  if !(pyTruthy args.command_name || args.is_printing_list) then
    ValidateResult.usageError "One of command-name or --list is required"
  else
    validate_args args cwd

/-- Translation of the Python expression name.startswith(pfx): the characters
of pfx form an initial segment of the characters of name. -/
def pyStartswith (pfx name : String) : Bool :=
  name.data.take pfx.data.length == pfx.data

/-- Shallow embedding of CommandSubparserInjector.complete_command_name (source
lines 211-233). The external dictionary loader (Dictionaries().load_dictionaries
followed by command_name.keys(), from fprime_gds.common.pipeline.dictionaries,
a module of this repository that is not under src) is passed as load, returning
the command-name index in its natural order or raising. The Bool in the result
records whether argcomplete.warn was called. Faithful to the source, only a
ValueError raised by get_dictionary_path is caught; an exception raised by the
loader propagates out of the function. -/
def complete_command_name (load : Option String → Except PyError (List String))
    (pfx : String) (parsed_args : Namespace) (cwd : String) :
    Except PyError (List String × Bool) :=
  match get_dictionary_path parsed_args cwd with
  | Except.error (PyError.valueError _) => Except.ok ([], true)
  | Except.error e => Except.error e
  | Except.ok dict_path =>
      match load dict_path with
      | Except.error e => Except.error e
      | Except.ok command_names =>
          Except.ok (command_names.filter (fun name => pyStartswith pfx name), false)

/-- An argument specifier: the tuple of option flags registered for one
argument. Python indexes the tuple with arg[0], so the first flag is kept
separate and the tuple can never be empty. -/
structure ArgSpec where
  first : String
  rest : List String
deriving DecidableEq, Repr

/-- Configuration attached to a specifier (help text, defaults, arity and so
on); only its identity matters to the claims, so it is represented by its help
string. -/
structure ArgConfig where
  help : String
deriving DecidableEq, Repr

/-- Shallow embedding of add_retrieval_arguments (source lines 45-60): exclude
defaults to the empty list when None, and every (specifier, configuration) pair
of the retrieval group whose FIRST flag is not in exclude is registered, in
iteration order. -/
def add_retrieval_arguments (retrieval_args : List (ArgSpec × ArgConfig))
    (exclude : Option (List String)) : List (ArgSpec × ArgConfig) :=
  let ex := exclude.getD []
  retrieval_args.filter (fun p => !ex.contains p.1.first)

/-- Modelled from the spec: RetrievalArgumentsParser(command_name).get_arguments()
lives in fprime_gds.executables.cli, a module of this repository that is not
under src. Per the spec the retrieval group contains the timeout option with
short flag -t and long flag --timeout, with help text parameterized by the
invoking command name, together with the remaining retrieval options, modelled
here by one follow-style option. -/
def retrieval_parser_arguments (command_name : String) : List (ArgSpec × ArgConfig) :=
  [ (ArgSpec.mk "-t" ["--timeout"],
      ArgConfig.mk ("how long to wait for new " ++ command_name ++ " messages")),
    (ArgSpec.mk "-F" ["--follow"],
      ArgConfig.mk ("keep printing new " ++ command_name ++ " messages as they arrive")) ]

/-- Retrieval arguments registered for the channels subcommand
(ChannelsSubparserInjector.add_arguments, source line 182: no exclusion). -/
def channels_retrieval_registered : List (ArgSpec × ArgConfig) :=
  add_retrieval_arguments (retrieval_parser_arguments "channels") none

/-- Retrieval arguments registered for the events subcommand
(EventsSubparserInjector.add_arguments, source line 306: no exclusion). -/
def events_retrieval_registered : List (ArgSpec × ArgConfig) :=
  add_retrieval_arguments (retrieval_parser_arguments "events") none

/-- Retrieval arguments registered for the command-send subcommand
(CommandSubparserInjector.add_arguments, source line 257: exclude is the list
containing -t and --timeout). -/
def command_send_retrieval_registered : List (ArgSpec × ArgConfig) :=
  add_retrieval_arguments (retrieval_parser_arguments "commands")
    (some ["-t", "--timeout"])

/-- The three subcommands registered on the root parser. -/
inductive Subcommand where
  | channels
  | commandSend
  | events
deriving DecidableEq, Repr

/-- The validate callback attached by set_defaults for each subcommand
(inject_subparser, source line 115). -/
def validateFor : Subcommand → Namespace → String → ValidateResult
  | Subcommand.channels => validate_args
  | Subcommand.commandSend => command_send_validate_args
  | Subcommand.events => validate_args

/-- Outcome of parse_args: help printed and process exited with the given
status, a validated namespace handed on to the selected handler, or the
parser.error path (usage message, nonzero exit). -/
inductive ParseOutcome where
  | helpExit (printedHelp : Bool) (exitCode : Nat)
  | validated (args : Namespace)
  | usageExit (msg : String)
deriving DecidableEq, Repr

/-- Shallow embedding of parse_args (source lines 334-348) after argparse has
consumed the raw argument list: func is the selected subcommand, none when the
raw list named no subcommand (argparse then leaves the func destination as
None, which is falsy). sys.exit() with no argument terminates the process with
status 0; parser.error terminates it with a nonzero status. -/
def parse_args (func : Option Subcommand) (args : Namespace) (cwd : String) :
    ParseOutcome :=
  match func with
  | none => ParseOutcome.helpExit true 0
  | some sc =>
      match validateFor sc args cwd with
      | ValidateResult.ok a => ParseOutcome.validated a
      | ValidateResult.usageError m => ParseOutcome.usageExit m

/-- Helper: get_dictionary_path always succeeds and returns the dictionary
attribute when present, None when absent. -/
theorem get_dictionary_path_eq (args : Namespace) (cwd : String) :
    get_dictionary_path args cwd = Except.ok (args.dictionary.getD none) := by
  cases h : args.dictionary <;> simp [get_dictionary_path, h]

/-- Helper: the default validation always succeeds, filling the dictionary
attribute with the resolver result; the ValueError branch is dead code. -/
theorem validate_args_eq_ok (args : Namespace) (cwd : String) :
    validate_args args cwd
      = ValidateResult.ok { args with dictionary := some (args.dictionary.getD none) } := by
  simp [validate_args, add_valid_dictionary, get_dictionary_path_eq]

/-- C1: evaluation of the code at the failing input. A namespace carrying no
dictionary attribute, resolved in a working directory containing no dictionary
artifact, yields ok None: get_dictionary_path performs no search of the working
directory and raises neither DictionaryNotFound nor InvalidDictionary; and even
a nonexistent explicit path is returned unchanged with no validity check, so
InvalidDictionary can likewise never arise. -/
theorem C1_resolver_never_searches_or_fails :
    get_dictionary_path {} "/empty-dir" = Except.ok none
      ∧ get_dictionary_path { dictionary := some (some "missing.xml") } "/empty-dir"
          = Except.ok (some "missing.xml") :=
  ⟨rfl, rfl⟩

/-- C2 counterexample: with command_name present as the empty string and
is_printing_list false, command-send validation takes the parser error path
even though a command_name value is present, refuting the claim that
validation succeeds whenever the command_name value is not absent. -/
theorem C2_counterexample_empty_command_name :
    ({ command_name := some "", dictionary := some (some "dict.xml") } : Namespace).command_name
        = some ""
      ∧ command_send_validate_args
          { command_name := some "", dictionary := some (some "dict.xml") } "/w"
          = ValidateResult.usageError "One of command-name or --list is required" :=
  ⟨rfl, by decide⟩

/-- C2 amended: command-send validation takes the parser error path exactly
when the command_name value is Python-falsy (absent or the empty string) and
is_printing_list is false; when either is truthy it delegates to the default
dictionary-attaching validation, which always succeeds. -/
theorem C2_command_send_validation (args : Namespace) (cwd : String) :
    (command_send_validate_args args cwd
        = ValidateResult.usageError "One of command-name or --list is required"
      ↔ (pyTruthy args.command_name = false ∧ args.is_printing_list = false))
    ∧ ((pyTruthy args.command_name || args.is_printing_list) = true →
        command_send_validate_args args cwd = validate_args args cwd
          ∧ command_send_validate_args args cwd
              = ValidateResult.ok { args with dictionary := some (args.dictionary.getD none) }) := by
  have hv := validate_args_eq_ok args cwd
  cases hc : pyTruthy args.command_name <;> cases hl : args.is_printing_list <;>
    simp [command_send_validate_args, hc, hl, hv]

/-- C2 witness: the amended theorem applied at a concrete input carrying a
truthy command name, with its hypothesis discharged by evaluation. -/
theorem C2_command_send_validation_witness :
    command_send_validate_args
        { command_name := some "SYS.NO_OP", dictionary := some (some "dict.xml") } "/w"
      = ValidateResult.ok
          { command_name := some "SYS.NO_OP", dictionary := some (some "dict.xml") } :=
  ((C2_command_send_validation
      { command_name := some "SYS.NO_OP", dictionary := some (some "dict.xml") } "/w").2
    (by decide)).2

/-- C3: the retrieval arguments registered for command-send never contain the
timeout specifier (no registered specifier has -t or --timeout as its first
flag, nor --timeout among its remaining flags), those registered for channels
and events do contain it, and the non-excluded (specifier, configuration) pairs
of the retrieval group are registered verbatim and in order for all three. -/
theorem C3_retrieval_composition :
    (command_send_retrieval_registered.all
        (fun p => p.1.first != "-t" && p.1.first != "--timeout"
          && p.1.rest.all (fun f => f != "--timeout"))) = true
    ∧ (∃ c, (ArgSpec.mk "-t" ["--timeout"], c) ∈ channels_retrieval_registered)
    ∧ (∃ c, (ArgSpec.mk "-t" ["--timeout"], c) ∈ events_retrieval_registered)
    ∧ channels_retrieval_registered = retrieval_parser_arguments "channels"
    ∧ events_retrieval_registered = retrieval_parser_arguments "events"
    ∧ command_send_retrieval_registered
        = (retrieval_parser_arguments "commands").filter
            (fun p => !(["-t", "--timeout"].contains p.1.first)) := by
  refine ⟨by decide,
    ⟨ArgConfig.mk "how long to wait for new channels messages", by decide⟩,
    ⟨ArgConfig.mk "how long to wait for new events messages", by decide⟩,
    rfl, rfl, rfl⟩

/-- Modelled from the spec: the behavior of Dictionaries().load_dictionaries
followed by the command-name index lookup (fprime_gds.common.pipeline.dictionaries,
a module of this repository that is not under src) in a session with no
dictionary anywhere: handed no path, or a path naming no loadable dictionary,
the loader raises. -/
def no_dictionary_load : Option String → Except PyError (List String)
  | none => Except.error (PyError.loadError "no dictionary path to load from")
  | some _ => Except.error (PyError.loadError "no loadable dictionary at path")

/-- C4: evaluation of the code at the failing input. With prefix EV and parsed
arguments carrying no dictionary attribute, in a working directory without a
dictionary artifact, completion does not warn and return the empty sequence:
get_dictionary_path cannot raise, so the ValueError handler never runs, None is
handed to the loader, and the loader failure propagates uncaught out of
complete_command_name, aborting the completion session. -/
theorem C4_completion_failure_propagates :
    complete_command_name no_dictionary_load "EV" {} "/empty-dir"
      = Except.error (PyError.loadError "no dictionary path to load from") :=
  rfl

/-- C5: when the raw argument list selects no subcommand, parse_args prints the
full help text and terminates the process with exit status 0; no validated
namespace and no usage error is produced, so no subcommand validate or execute
runs. -/
theorem C5_no_subcommand_help_exit (args : Namespace) (cwd : String) :
    parse_args none args cwd = ParseOutcome.helpExit true 0 :=
  rfl

/-- C6: for every prefix and every dictionary whose command-name index loads
successfully, completion returns exactly the names of the index whose text
begins with the prefix, in the index order: the result is the filtered index,
a sublist of the index whose members are exactly the index members having the
prefix as an initial character segment; and at prefix EV with index
EVENTS.CMD_A, EVENTS.CMD_B, OTHER.CMD_C it returns exactly the first two. -/
theorem C6_completion_matches (names : List String) (pfx : String)
    (args : Namespace) (cwd : String) :
    complete_command_name (fun _ => Except.ok names) pfx args cwd
        = Except.ok (names.filter (fun n => pyStartswith pfx n), false)
    ∧ (names.filter (fun n => pyStartswith pfx n)).Sublist names
    ∧ (∀ n, n ∈ names.filter (fun n => pyStartswith pfx n)
        ↔ (n ∈ names ∧ n.data.take pfx.data.length = pfx.data))
    ∧ complete_command_name
          (fun _ => Except.ok ["EVENTS.CMD_A", "EVENTS.CMD_B", "OTHER.CMD_C"])
          "EV" {} "/w"
        = Except.ok (["EVENTS.CMD_A", "EVENTS.CMD_B"], false) := by
  refine ⟨?_, List.filter_sublist names, ?_, rfl⟩
  · simp [complete_command_name, get_dictionary_path_eq]
  · intro n
    simp [List.mem_filter, pyStartswith]

/-- C7: dictionary resolution is deterministic and idempotent: for one and the
same parsed-arguments value the result does not depend on the working-directory
state read during the call, so two calls with identical input yield the
identical path or the identical failure on both calls. -/
theorem C7_resolution_idempotent (args : Namespace) (cwd₁ cwd₂ : String) :
    get_dictionary_path args cwd₁ = get_dictionary_path args cwd₂ := by
  rw [get_dictionary_path_eq, get_dictionary_path_eq]

/-- C8: validation never changes a user-supplied argument. The default
validation returns its input with only the dictionary field rewritten to the
resolver result (record-update form: every other field is that of the input),
an explicitly supplied dictionary value is kept unchanged, and
get_dictionary_path works on a copy, returning only a value and leaving its
input untouched. -/
theorem C8_validation_frame (args : Namespace) (v : Option String) (cwd : String) :
    validate_args args cwd
        = ValidateResult.ok { args with dictionary := some (args.dictionary.getD none) }
    ∧ validate_args { args with dictionary := some v } cwd
        = ValidateResult.ok { args with dictionary := some v }
    ∧ get_dictionary_path args cwd = Except.ok (args.dictionary.getD none) :=
  ⟨validate_args_eq_ok args cwd,
    by simpa using validate_args_eq_ok { args with dictionary := some v } cwd,
    get_dictionary_path_eq args cwd⟩

/-- C9: get_dictionary_path is total, never raising for any input namespace,
and returns the dictionary attribute (None when the attribute is absent);
consequently the ValueError-catching branches are unreachable for every input:
the default validation never takes its parser error branch, and completion
never takes its warn branch, its outcome being fully determined by the loader
applied to the resolved path. -/
theorem C9_resolver_total (args : Namespace) (cwd : String) (pfx : String)
    (load : Option String → Except PyError (List String)) :
    get_dictionary_path args cwd = Except.ok (args.dictionary.getD none)
    ∧ validate_args args cwd
        = ValidateResult.ok { args with dictionary := some (args.dictionary.getD none) }
    ∧ complete_command_name load pfx args cwd
        = (match load (args.dictionary.getD none) with
            | Except.error e => Except.error e
            | Except.ok command_names =>
                Except.ok (command_names.filter (fun name => pyStartswith pfx name), false)) := by
  refine ⟨get_dictionary_path_eq args cwd, validate_args_eq_ok args cwd, ?_⟩
  simp [complete_command_name, get_dictionary_path_eq]

/-- C10: exclusion in add_retrieval_arguments compares only the first flag of
each specifier with the exclude list: a pair is registered exactly when it
belongs to the retrieval group and its first flag is not in the exclude list,
and a specifier whose long-form flag is in the exclude list but whose first
flag is not is still registered. -/
theorem C10_exclusion_first_flag (retrieval_args : List (ArgSpec × ArgConfig))
    (ex : List String) (p : ArgSpec × ArgConfig) :
    (p ∈ add_retrieval_arguments retrieval_args (some ex)
      ↔ (p ∈ retrieval_args ∧ ex.contains p.1.first = false))
    ∧ (ArgSpec.mk "-x" ["--timeout"], ArgConfig.mk "alternate timeout")
        ∈ add_retrieval_arguments
            [(ArgSpec.mk "-x" ["--timeout"], ArgConfig.mk "alternate timeout")]
            (some ["--timeout"]) := by
  constructor
  · simp [add_retrieval_arguments, List.mem_filter]
  · decide

end FprimeCli
